import Mathlib

set_option maxHeartbeats 1000000

-- ============================================================================
-- Shallow embedding of the open-geodata-api core:
--   * STACSearch with its 3-tier fallback strategy
--     (src/open_geodata_api/core/search.py)
--   * EarthSearchCollections.search
--     (src/open_geodata_api/earthsearch/client.py)
--   * GeometryNormalizer / SpatialFilter engine; its implementation
--     (open_geodata_api/utils/filters.py) is not among the provided sources,
--     only its test suite, so it is modelled from the spec (sections 4.1, 4.2).
--
-- Python effects are made explicit: methods that mutate `self` become
-- functions `STACSearch -> STACSearch × result × events`, where the event
-- list records every invocation of a retrieval collaborator (the pystac
-- paginated client of tier 2 and the chunking search of tier 3), so that
-- call-count properties can be stated.  Exceptions raised by collaborators
-- are part of the collaborator outcome types and are consumed exactly where
-- the Python code has its `try/except` blocks; `ValueError`s raised by
-- EarthSearchCollections.search itself are modelled with `Except`.
-- ============================================================================

-- Decidable equality for Except, used to evaluate fallible results.
instance exceptDecEq {ε α : Type} [DecidableEq ε] [DecidableEq α] :
    DecidableEq (Except ε α)
  | .error a, .error b =>
    if h : a = b then isTrue (by rw [h]) else isFalse (by simp [h])
  | .error _, .ok _ => isFalse (fun h => Except.noConfusion h)
  | .ok _, .error _ => isFalse (fun h => Except.noConfusion h)
  | .ok a, .ok b =>
    if h : a = b then isTrue (by rw [h]) else isFalse (by simp [h])

-- An item record as far as the search engine inspects it: `list_product_ids`
-- checks `isinstance(item, dict)` and reads `item.get('id')` (an empty or
-- missing id is falsy and dropped); everything else treats items opaquely.
inductive SItem where
  | dict (idOpt : Option String)
  | nonDict
deriving DecidableEq

-- STACItemCollection (core/collections.py is out of the provided sources;
-- per spec section 6 it is an ordered container of raw item records plus a
-- provider tag).
structure STACItemCollection where
  items : List SItem
  provider : String
deriving DecidableEq

-- EarthSearch search payload, as built by EarthSearchCollections.search.
-- `datetimeField = some none` models the key being set to Python None
-- (possible when _format_datetime_rfc3339 returns None).
structure EsPayload where
  collectionsField : Option (List String) := none
  intersectsField : Bool := false
  bboxField : Option (List ℚ) := none
  datetimeField : Option (Option String) := none
  queryField : Bool := false
  limitField : Nat := 0
deriving DecidableEq

-- Value of the 'collections_searched' key: `collections or "all"`.
inductive CollsSearched where
  | all
  | listed (cs : List String)
deriving DecidableEq

-- The search-results dict passed to the STACSearch constructor, restricted
-- to the keys the embedded code reads.  `none` models an absent key.
structure SearchResults where
  itemsKey : Option (List SItem) := none
  featuresKey : Option (List SItem) := none
  all_items_cached : Bool := false
  total_returned : Option Nat := none
  numberMatched : Option Nat := none
  matchedKey : Option Nat := none
  search_params : Option EsPayload := none
  collections_searched : Option CollsSearched := none
  error : Option String := none
deriving DecidableEq

-- Outcome of the tier-2 pystac-client collaborator, covering
-- _create_pystac_catalog_fallback returning a falsy catalog (`noCatalog`),
-- any exception raised during catalog creation / search / retrieval
-- (`raised`), and a successful full retrieval (`retrieved`).
inductive PystacOutcome where
  | noCatalog
  | raised (msg : String)
  | retrieved (itemsGot : List SItem)
deriving DecidableEq

-- Outcome of the tier-3 chunking collaborator _fallback_chunking_search.
inductive ChunkOutcome where
  | raised (msg : String)
  | retrieved (itemsGot : List SItem)
deriving DecidableEq

-- The client instance as seen by the fallback tiers: a `none` chunking
-- field models `hasattr(client, '_fallback_chunking_search') == False`.
structure ClientModel where
  pystac : PystacOutcome
  chunking : Option ChunkOutcome
deriving DecidableEq

-- One recorded invocation of a retrieval collaborator.
inductive TierCall where
  | pystacCall
  | chunkingCall
deriving DecidableEq

-- The mutable state of one STACSearch instance (core/search.py lines 19-43).
structure STACSearch where
  results : SearchResults
  items : List SItem
  provider : String
  client : Option ClientModel
  original_params : List (String × String)
  search_url : Option String
  verbose : Bool
  fallback_attempted : Bool
  pystac_attempted : Bool
  chunking_attempted : Bool
  all_items_cached : Bool
  all_items_cache : Option STACItemCollection
  meta_pystac_matched : Option Nat
  meta_chunking_matched : Option Nat
  meta_fallback_matched : Option Nat
  meta_fallback_total : Option Nat
deriving DecidableEq

-- STACSearch.__init__ (search.py lines 19-43).
-- `self._items = search_results.get('items', search_results.get('features', []))`
def STACSearch.init (search_results : SearchResults) (provider : String)
    (client_instance : Option ClientModel)
    (original_search_params : List (String × String))
    (search_url : Option String) (verbose : Bool) : STACSearch :=
  let its := (search_results.itemsKey).getD ((search_results.featuresKey).getD [])
  { results := search_results
    items := its
    provider := provider
    client := client_instance
    original_params := original_search_params
    search_url := search_url
    verbose := verbose
    fallback_attempted := false
    pystac_attempted := false
    chunking_attempted := false
    all_items_cached := search_results.all_items_cached
    all_items_cache :=
      if search_results.all_items_cached then
        some { items := its, provider := provider }
      else none
    meta_pystac_matched := none
    meta_chunking_matched := none
    meta_fallback_matched := none
    meta_fallback_total := none }

-- _try_pystac_fallback (search.py lines 98-142).  Guard: if already
-- attempted or PYSTAC_AVAILABLE is false, return None without setting the
-- attempted flag.  Otherwise the flag is set, the collaborator is invoked
-- (event `pystacCall`), every exception is caught and turned into None, and
-- on success metadata, cache and the cached flag are written.  A `none`
-- client makes the attribute access raise inside the try block before any
-- collaborator call.
def STACSearch.try_pystac_fallback (pystacAvailable : Bool) (s : STACSearch) :
    STACSearch × Option STACItemCollection × List TierCall :=
  if s.pystac_attempted || !pystacAvailable then (s, none, [])
  else
    match s.client with
    | none => ({ s with pystac_attempted := true }, none, [])
    | some c =>
      match c.pystac with
      | .noCatalog => ({ s with pystac_attempted := true }, none, [.pystacCall])
      | .raised _ => ({ s with pystac_attempted := true }, none, [.pystacCall])
      | .retrieved got =>
        ({ s with
            pystac_attempted := true
            meta_pystac_matched := some got.length
            all_items_cache := some { items := got, provider := s.provider }
            all_items_cached := true },
          some { items := got, provider := s.provider }, [.pystacCall])

-- _try_chunking_fallback (search.py lines 144-181).  The attempted flag is
-- set first; `hasattr` failing (chunking = none) or a `none` client yields
-- None without a collaborator call; exceptions are caught; success writes
-- metadata, cache and the cached flag.
def STACSearch.try_chunking_fallback (s : STACSearch) :
    STACSearch × Option STACItemCollection × List TierCall :=
  if s.chunking_attempted then (s, none, [])
  else
    match s.client with
    | none => ({ s with chunking_attempted := true }, none, [])
    | some c =>
      match c.chunking with
      | none => ({ s with chunking_attempted := true }, none, [])
      | some (.raised _) => ({ s with chunking_attempted := true }, none, [.chunkingCall])
      | some (.retrieved got) =>
        ({ s with
            chunking_attempted := true
            meta_chunking_matched := some got.length
            all_items_cache := some { items := got, provider := s.provider }
            all_items_cached := true },
          some { items := got, provider := s.provider }, [.chunkingCall])

-- get_all_items (search.py lines 59-96).  Truthiness of the cache and of
-- tier results is modelled as presence (`isSome`): the spec's
-- FallbackResultCache contract (section 4.3) keys the short-circuit on the
-- cache being populated, and STACItemCollection's own truthiness is defined
-- outside the provided sources.  Client truthiness is not-None, since the
-- client classes define neither __bool__ nor __len__.
def STACSearch.get_all_items (pystacAvailable : Bool) (s : STACSearch) :
    STACSearch × STACItemCollection × List TierCall :=
  match s.all_items_cache with
  | some c => (s, c, [])
  | none =>
    if s.all_items_cached then
      ({ s with all_items_cache := some { items := s.items, provider := s.provider } },
        { items := s.items, provider := s.provider }, [])
    else if !s.fallback_attempted && s.client.isSome then
      if s.items.length = 100 then
        match ({ s with fallback_attempted := true }).try_pystac_fallback
            pystacAvailable with
        | (s2, some c, ev) => (s2, c, ev)
        | (s2, none, ev1) =>
          match s2.try_chunking_fallback with
          | (s3, some c, ev2) => (s3, c, ev1 ++ ev2)
          | (s3, none, ev2) =>
            (s3, { items := s3.items, provider := s3.provider }, ev1 ++ ev2)
      else
        ({ s with fallback_attempted := true },
          { items := s.items, provider := s.provider }, [])
    else
      (s, { items := s.items, provider := s.provider }, [])

-- _ensure_fallback_data (search.py lines 45-57).  get_all_items is total in
-- the embedding (all collaborator exceptions are caught inside the tiers),
-- so the `except` branch returning False is unreachable; the returned
-- option is the cache value after the call (some iff the Python method
-- returns True, which is always).
def STACSearch.ensure_fallback_data (pystacAvailable : Bool) (s : STACSearch) :
    STACSearch × Option STACItemCollection × List TierCall :=
  match s.all_items_cache with
  | some c => (s, some c, [])
  | none =>
    match s.get_all_items pystacAvailable with
    | (s1, coll, ev) => ({ s1 with all_items_cache := some coll }, some coll, ev)

-- items() (search.py lines 187-199): yields wrappers over the cached
-- complete collection when available, else over the direct-page items.
def STACSearch.items_iter (pystacAvailable : Bool) (s : STACSearch) :
    STACSearch × List SItem × List TierCall :=
  match s.ensure_fallback_data pystacAvailable with
  | (s1, some c, ev) => (s1, c.items, ev)
  | (s1, none, ev) => (s1, s1.items, ev)

-- matched() (search.py lines 201-217).
def STACSearch.matched (pystacAvailable : Bool) (s : STACSearch) :
    STACSearch × Option Nat × List TierCall :=
  match s.meta_pystac_matched with
  | some n => (s, some n, [])
  | none =>
    match s.meta_chunking_matched with
    | some n => (s, some n, [])
    | none =>
      match s.ensure_fallback_data pystacAvailable with
      | (s1, some c, ev) =>
        ({ s1 with meta_fallback_matched := some c.items.length },
          some c.items.length, ev)
      | (s1, none, ev) =>
        (s1, (s1.results.numberMatched).orElse (fun _ => s1.results.matchedKey),
          ev)

-- total_items() (search.py lines 219-228).
def STACSearch.total_items (pystacAvailable : Bool) (s : STACSearch) :
    STACSearch × Option Nat × List TierCall :=
  match s.ensure_fallback_data pystacAvailable with
  | (s1, some c, ev) =>
    ({ s1 with meta_fallback_total := some c.items.length },
      some c.items.length, ev)
  | (s1, none, ev) => (s1, s1.results.total_returned, ev)

-- Extraction of product ids (search.py lines 242-251): keep dict items with
-- a truthy id.  Python materializes the ids through a set, whose iteration
-- order is unspecified; the embedding canonicalizes to first-occurrence
-- order via dedup.
def extractIds (its : List SItem) : List String :=
  (its.filterMap fun it =>
    match it with
    | .dict (some i) => if i = "" then none else some i
    | _ => none).dedup

-- list_product_ids() (search.py lines 238-251).
def STACSearch.list_product_ids (pystacAvailable : Bool) (s : STACSearch) :
    STACSearch × List String × List TierCall :=
  match s.ensure_fallback_data pystacAvailable with
  | (s1, some c, ev) => (s1, extractIds c.items, ev)
  | (s1, none, ev) => (s1, extractIds s1.items, ev)

-- __len__ (search.py lines 265-272).
def STACSearch.length (pystacAvailable : Bool) (s : STACSearch) :
    STACSearch × Nat × List TierCall :=
  match s.ensure_fallback_data pystacAvailable with
  | (s1, some c, ev) => (s1, c.items.length, ev)
  | (s1, none, ev) => (s1, s1.items.length, ev)

-- Remaining permissions to invoke each retrieval collaborator: 1 before the
-- corresponding attempted flag is set, 0 afterwards.  Used to state that
-- each collaborator is invoked at most once per instance.
def potP (s : STACSearch) : Nat := if s.pystac_attempted then 0 else 1

def potC (s : STACSearch) : Nat := if s.chunking_attempted then 0 else 1

-- One public accessor call on a STACSearch instance.
inductive MethodCall where
  | getAllItems
  | itemsIter
  | matchedQ
  | totalItemsQ
  | productIds
  | lenQ
deriving DecidableEq

-- Perform one method call, keeping only the state transition and the
-- collaborator-invocation events.
def STACSearch.step (pystacAvailable : Bool) (s : STACSearch) :
    MethodCall → STACSearch × List TierCall
  | .getAllItems =>
    match s.get_all_items pystacAvailable with | (s1, _, ev) => (s1, ev)
  | .itemsIter =>
    match s.items_iter pystacAvailable with | (s1, _, ev) => (s1, ev)
  | .matchedQ =>
    match s.matched pystacAvailable with | (s1, _, ev) => (s1, ev)
  | .totalItemsQ =>
    match s.total_items pystacAvailable with | (s1, _, ev) => (s1, ev)
  | .productIds =>
    match s.list_product_ids pystacAvailable with | (s1, _, ev) => (s1, ev)
  | .lenQ =>
    match s.length pystacAvailable with | (s1, _, ev) => (s1, ev)

-- Run a sequence of method calls, concatenating all collaborator events.
def STACSearch.run (pystacAvailable : Bool) (s : STACSearch) :
    List MethodCall → STACSearch × List TierCall
  | [] => (s, [])
  | m :: ms =>
    match s.step pystacAvailable m with
    | (s1, ev1) =>
      match s1.run pystacAvailable ms with
      | (s2, ev2) => (s2, ev1 ++ ev2)

-- ============================================================================
-- EarthSearchCollections.search (earthsearch/client.py lines 93-165)
-- ============================================================================

-- The datetime argument: Union[str, List[str], Tuple[str, str]].
inductive DtInput where
  | str (s : String)
  | listOf (xs : List String)
  | tup (a b : String)
deriving DecidableEq

-- Python truthiness of the optional datetime argument (`if datetime:`).
def dtTruthy : Option DtInput → Bool
  | none => false
  | some (.str s) => decide (s ≠ "")
  | some (.listOf xs) => decide (xs ≠ [])
  | some (.tup _ _) => true

-- client.py lines 120-126: tuples of two become "start/end", lists are
-- joined with "/", anything else is stringified as-is.
def dtJoin : Option DtInput → String
  | some (.tup a b) => a ++ "/" ++ b
  | some (.listOf xs) => String.intercalate "/" xs
  | some (.str s) => s
  | none => ""

-- _format_datetime_rfc3339 (client.py lines 57-91) on the string cases; the
-- datetime-object branch is unreachable from search's annotated argument
-- types.  A range string with more or fewer than two '/'-separated parts
-- makes the Python tuple unpacking raise ValueError, modelled as .error.
def formatDatetimeRfc3339 (ds : String) : Except String (Option String) :=
  if ds = "" then .ok none
  else if ds.contains 'T' && ds.endsWith "Z" then .ok (some ds)
  else if ds.contains '/' then
    match ds.splitOn "/" with
    | [sd, ed] =>
      let sr := if !(sd.contains 'T') then sd ++ "T00:00:00Z"
        else if sd.endsWith "Z" then sd else sd ++ "Z"
      let er := if !(ed.contains 'T') then ed ++ "T23:59:59Z"
        else if ed.endsWith "Z" then ed else ed ++ "Z"
      .ok (some (sr ++ "/" ++ er))
    | _ => .error "ValueError: cannot unpack datetime range"
  else if !(ds.contains 'T') then .ok (some (ds ++ "T00:00:00Z"))
  else if !(ds.endsWith "Z") then .ok (some (ds ++ "Z"))
  else .ok (some ds)

-- The parsed JSON body of the search response (client.py lines 146-151):
-- a dict carrying 'features', a bare JSON array, or anything else.
inductive EsData where
  | dictWithFeatures (features : List SItem)
  | arrayData (xs : List SItem)
  | otherData
deriving DecidableEq

-- Payload construction and its ValueErrors (client.py lines 103-134).
-- `if collections:` and `if bbox:` are Python truthiness tests, so an empty
-- list skips both the validation and the payload key.
def esBuildPayload (knownCollections : List String)
    (collections : Option (List String)) (intersectsArg : Bool)
    (bbox : Option (List ℚ)) (datetimeArg : Option DtInput)
    (queryArg : Bool) (limit : Nat) : Except String EsPayload := do
  let colls ←
    match collections with
    | some cs =>
      if cs = [] then pure (none : Option (List String))
      else if (cs.filter fun c => decide (c ∉ knownCollections)) ≠ [] then
        Except.error "ValueError: Invalid collections"
      else pure (some cs)
    | none => pure none
  let bb ←
    match bbox with
    | some b =>
      if b = [] then pure (none : Option (List ℚ))
      else if b.length ≠ 4 then
        Except.error "ValueError: bbox must be [west, south, east, north]"
      else pure (some b)
    | none => pure none
  let dt ←
    if dtTruthy datetimeArg then do
      let f ← formatDatetimeRfc3339 (dtJoin datetimeArg)
      pure (some f)
    else pure (none : Option (Option String))
  pure { collectionsField := colls
         intersectsField := intersectsArg
         bboxField := bb
         datetimeField := dt
         queryField := queryArg
         limitField := min limit 1000 }

-- EarthSearchCollections.search (client.py lines 93-165).  The transport
-- argument is the outcome of the HTTP POST + raise_for_status + json():
-- .error models a requests.RequestException, which is the only exception
-- class the except clause catches.  On transport failure the method prints
-- and returns an empty STACSearch recording the error; it never constructs
-- a client_instance for the STACSearch it returns.  `max_items = some 0` is
-- falsy in Python, so it does not truncate.
def esSearch (knownCollections : List String)
    (collections : Option (List String)) (intersectsArg : Bool)
    (bbox : Option (List ℚ)) (datetimeArg : Option DtInput)
    (queryArg : Bool) (limit : Nat) (max_items : Option Nat)
    (transport : Except String EsData) : Except String STACSearch := do
  let payload ← esBuildPayload knownCollections collections intersectsArg bbox
    datetimeArg queryArg limit
  match transport with
  | .error e =>
    pure (STACSearch.init
      { featuresKey := some [], total_returned := some 0, error := some e }
      "earthsearch" none [] none false)
  | .ok data =>
    let items0 :=
      match data with
      | .dictWithFeatures fs => fs
      | .arrayData xs => xs
      | .otherData => []
    let items1 :=
      match max_items with
      | some m => if m ≠ 0 ∧ items0.length > m then items0.take m else items0
      | none => items0
    pure (STACSearch.init
      { featuresKey := some items1
        total_returned := some items1.length
        search_params := some payload
        collections_searched := some
          (match collections with
           | some cs => if cs ≠ [] then CollsSearched.listed cs else .all
           | none => .all) }
      "earthsearch" none [] none false)

-- ============================================================================
-- GeometryNormalizer / SpatialFilter.
-- Modelled from the spec: open_geodata_api/utils/filters.py (the
-- filter_by_geometry implementation exercised by
-- src/test/test_all_geometry_formats.py) is not among the provided
-- sources, so the normalizer and filter are built from spec sections 4.1,
-- 4.2 and 7 (GeometryError taxonomy).
-- ============================================================================

structure GeometryError where
  msg : String
deriving DecidableEq

-- Spec section 3: the canonical geometry union.
inductive NormalizedGeometry where
  | point (x y : ℚ)
  | bbox (w s e n : ℚ)
  | polygon (ring : List (ℚ × ℚ))
deriving DecidableEq

-- GeoJSON-style coordinates: a coordinate pair for Point, a list of rings
-- (outer ring first) for Polygon.
inductive GeoCoords where
  | pt (x y : ℚ)
  | rings (rs : List (List (ℚ × ℚ)))
deriving DecidableEq

-- The accepted geometry input shapes of spec section 4.1: flat number
-- sequences, point sequences, a bare scalar, GeoJSON-like mappings, WKT
-- strings, duck-typed geometry objects, and None.
inductive GeomInput where
  | numbers (xs : List ℚ)
  | points (ps : List (ℚ × ℚ))
  | scalar (x : ℚ)
  | geojson (ty : String) (coords : GeoCoords)
  | wkt (s : String)
  | geomObject (gt : String) (coords : GeoCoords)
  | null
deriving DecidableEq

-- Spec section 4.1 rule 4: a ring is implicitly closed by appending the
-- first point when last differs from first.
def closeRing (ps : List (ℚ × ℚ)) : List (ℚ × ℚ) :=
  match ps with
  | [] => []
  | p :: _ => if ps.getLast? = some p then ps else ps ++ [p]

-- Coordinate extraction for GeoJSON-shaped input (spec rule 6) and for
-- duck-typed geometry objects (spec rule 8); type values outside the
-- supported set fail with GeometryError.
def normGeoJson (ty : String) (coords : GeoCoords) :
    Except GeometryError NormalizedGeometry :=
  if ty = "Point" then
    match coords with
    | .pt x y => .ok (.point x y)
    | _ => .error { msg := "Malformed Point coordinates" }
  else if ty = "Polygon" then
    match coords with
    | .rings (r :: _) =>
      if r = [] then .error { msg := "Malformed Polygon coordinates" }
      else .ok (.polygon (closeRing r))
    | _ => .error { msg := "Malformed Polygon coordinates" }
  else .error { msg := "Unsupported geometry type" }

-- Rational min/max written so that concrete inputs evaluate by reduction.
def ratMin (a b : ℚ) : ℚ := if a ≤ b then a else b

def ratMax (a b : ℚ) : ℚ := if a ≤ b then b else a

-- Character-list utilities (structural recursion, so concrete WKT strings
-- evaluate inside proofs).
def stripSpaces (cs : List Char) : List Char :=
  ((cs.dropWhile fun c => c == ' ').reverse.dropWhile fun c => c == ' ').reverse

def splitChar (sep : Char) : List Char → List (List Char)
  | [] => [[]]
  | c :: rest =>
    let r := splitChar sep rest
    if c == sep then [] :: r
    else
      match r with
      | g :: gs => (c :: g) :: gs
      | [] => [[c]]

def listStartsWith : List Char → List Char → Bool
  | [], _ => true
  | _ :: _, [] => false
  | p :: ps, c :: cs => p == c && listStartsWith ps cs

-- Digit-string to Nat; none on empty or non-digit input.
def digitsToNat (cs : List Char) : Option Nat :=
  if cs = [] then none
  else cs.foldl
    (fun acc c =>
      match acc with
      | none => none
      | some n => if c.isDigit then some (n * 10 + (c.toNat - 48)) else none)
    (some 0)

-- Decimal literal parser for WKT coordinates: optional sign, digits,
-- optional fractional part.
def parseRat (t : List Char) : Option ℚ :=
  let cs := stripSpaces t
  let (neg, cs1) :=
    match cs with
    | '-' :: rest => (true, rest)
    | _ => (false, cs)
  let intPart := cs1.takeWhile Char.isDigit
  let rest := cs1.dropWhile Char.isDigit
  if intPart = [] then none
  else
    match digitsToNat intPart with
    | none => none
    | some ip =>
      match rest with
      | [] => some (if neg then -(ip : ℚ) else (ip : ℚ))
      | '.' :: frac =>
        match digitsToNat frac with
        | none => none
        | some fp =>
          let q : ℚ := (ip : ℚ) + (fp : ℚ) / ((10 : ℚ) ^ frac.length)
          some (if neg then -q else q)
      | _ => none

-- One WKT coordinate pair "x y".
def parseCoordPair (t : List Char) : Option (ℚ × ℚ) :=
  match (splitChar ' ' (stripSpaces t)).filter (fun w => decide (w ≠ [])) with
  | [xs, ys] =>
    match parseRat xs, parseRat ys with
    | some x, some y => some (x, y)
    | _, _ => none
  | _ => none

-- Well-Known-Text parsing (spec rule 7): POINT and POLYGON (single outer
-- ring) are parsed into the canonical form; malformed text fails with
-- GeometryError.
def parseWkt (t : String) : Except GeometryError NormalizedGeometry :=
  let w := stripSpaces t.toList
  if listStartsWith ['P', 'O', 'I', 'N', 'T', '('] w && w.getLast? == some ')' then
    match parseCoordPair ((w.drop 6).dropLast) with
    | some (x, y) => .ok (.point x y)
    | none => .error { msg := "Malformed WKT" }
  else if listStartsWith ['P', 'O', 'L', 'Y', 'G', 'O', 'N', '(', '('] w &&
      (w.getLast? == some ')' && w.dropLast.getLast? == some ')') then
    let body := (w.drop 9).dropLast.dropLast
    match (splitChar ',' body).mapM parseCoordPair with
    | some ps =>
      if ps.length ≥ 3 then .ok (.polygon (closeRing ps))
      else .error { msg := "Malformed WKT" }
    | none => .error { msg := "Malformed WKT" }
  else .error { msg := "Malformed WKT" }

-- GeometryNormalizer.normalize, spec section 4.1, rules in resolution
-- order: 4 numbers -> BoundingBox; 2 numbers -> Point; exactly two 2-number
-- points -> BoundingBox from diagonal corners with min/max normalization;
-- three or more points -> Polygon with implicit ring closure; a bare scalar
-- -> insufficient dimensionality; GeoJSON mapping / WKT / duck-typed object
-- -> delegated; None and everything unrecognized (e.g. a 1-number
-- sequence) -> GeometryError "Unsupported geometry type".
def GeometryNormalizer.normalize : GeomInput →
    Except GeometryError NormalizedGeometry
  | .numbers xs =>
    match xs with
    | [w, s, e, n] => .ok (.bbox w s e n)
    | [x, y] => .ok (.point x y)
    | _ => .error { msg := "Unsupported geometry type" }
  | .points ps =>
    match ps with
    | [(x1, y1), (x2, y2)] =>
      .ok (.bbox (ratMin x1 x2) (ratMin y1 y2) (ratMax x1 x2) (ratMax y1 y2))
    | p :: q :: r :: rest => .ok (.polygon (closeRing (p :: q :: r :: rest)))
    | _ => .error { msg := "Unsupported geometry type" }
  | .scalar _ => .error { msg := "insufficient dimensionality" }
  | .geojson ty coords => normGeoJson ty coords
  | .wkt s => parseWkt s
  | .geomObject gt coords => normGeoJson gt coords
  | .null => .error { msg := "Unsupported geometry type" }

-- An item record as the spatial filter sees it (spec section 3).
structure FItem where
  itemId : String
  geometry : Option (String × GeoCoords) := none
  bboxField : Option (List ℚ) := none
deriving DecidableEq

-- Spec section 4.2: prefer the item geometry, else synthesize a
-- BoundingBox from bbox, else the item has no footprint and is excluded;
-- malformed footprints are skipped, not fatal.
def itemFootprint (it : FItem) : Option NormalizedGeometry :=
  match it.geometry with
  | some (ty, coords) => (normGeoJson ty coords).toOption
  | none =>
    match it.bboxField with
    | some [w, s, e, n] => some (.bbox w s e n)
    | _ => none

-- Exact geometric primitives over ℚ.
def orient (a b c : ℚ × ℚ) : ℚ :=
  (b.1 - a.1) * (c.2 - a.2) - (b.2 - a.2) * (c.1 - a.1)

def onSegment (p a b : ℚ × ℚ) : Bool :=
  decide (orient a b p = 0) &&
  decide (ratMin a.1 b.1 ≤ p.1) && decide (p.1 ≤ ratMax a.1 b.1) &&
  decide (ratMin a.2 b.2 ≤ p.2) && decide (p.2 ≤ ratMax a.2 b.2)

def segsIntersect (a b c d : ℚ × ℚ) : Bool :=
  (decide (orient a b c * orient a b d < 0) &&
   decide (orient c d a * orient c d b < 0)) ||
  onSegment c a b || onSegment d a b || onSegment a c d || onSegment b c d

def polyEdges (ring : List (ℚ × ℚ)) : List ((ℚ × ℚ) × (ℚ × ℚ)) :=
  ring.zip (ring.drop 1)

def rayCrosses (p a b : ℚ × ℚ) : Bool :=
  (decide (a.2 > p.2) != decide (b.2 > p.2)) &&
  decide (p.1 < a.1 + (b.1 - a.1) * (p.2 - a.2) / (b.2 - a.2))

-- Point-in-polygon: a point exactly on the boundary counts as inside
-- (spec section 4.2), otherwise ray casting.
def ptInPolygon (p : ℚ × ℚ) (ring : List (ℚ × ℚ)) : Bool :=
  (polyEdges ring).any (fun e => onSegment p e.1 e.2) ||
  (polyEdges ring).foldl (fun acc e => if rayCrosses p e.1 e.2 then !acc else acc)
    false

def ptInBBox (x y w s e n : ℚ) : Bool :=
  decide (w ≤ x) && decide (x ≤ e) && decide (s ≤ y) && decide (y ≤ n)

-- Spec section 4.2: axis-aligned bounding-box overlap, strict form.
def bboxOverlap (w1 s1 e1 n1 w2 s2 e2 n2 : ℚ) : Bool :=
  decide (w1 < e2) && decide (w2 < e1) && decide (s1 < n2) && decide (s2 < n1)

def bboxToRing (w s e n : ℚ) : List (ℚ × ℚ) :=
  [(w, s), (e, s), (e, n), (w, n), (w, s)]

-- Polygon-polygon intersection: an edge crossing, or a vertex of either
-- polygon inside the other (covers containment and touching edges).
def polyPolyIntersect (r1 r2 : List (ℚ × ℚ)) : Bool :=
  (polyEdges r1).any (fun e1 =>
    (polyEdges r2).any fun e2 => segsIntersect e1.1 e1.2 e2.1 e2.2) ||
  r1.any (fun p => ptInPolygon p r2) ||
  r2.any (fun p => ptInPolygon p r1)

-- Intersection test between normalized geometries (spec section 4.2).
def geomIntersects : NormalizedGeometry → NormalizedGeometry → Bool
  | .point x y, .point x' y' => decide (x = x') && decide (y = y')
  | .point x y, .bbox w s e n => ptInBBox x y w s e n
  | .bbox w s e n, .point x y => ptInBBox x y w s e n
  | .bbox w1 s1 e1 n1, .bbox w2 s2 e2 n2 => bboxOverlap w1 s1 e1 n1 w2 s2 e2 n2
  | .point x y, .polygon r => ptInPolygon (x, y) r
  | .polygon r, .point x y => ptInPolygon (x, y) r
  | .polygon r, .bbox w s e n => polyPolyIntersect r (bboxToRing w s e n)
  | .bbox w s e n, .polygon r => polyPolyIntersect (bboxToRing w s e n) r
  | .polygon r1, .polygon r2 => polyPolyIntersect r1 r2

-- SpatialFilter.filter (spec section 4.2): normalize the query geometry
-- once — its GeometryError is surfaced to the caller — then keep, in input
-- order, the items whose footprint intersects it.
def filter_by_geometry (items : List FItem) (g : GeomInput) :
    Except GeometryError (List FItem) := do
  let ng ← GeometryNormalizer.normalize g
  pure (items.filter fun it =>
    match itemFootprint it with
    | some fp => geomIntersects ng fp
    | none => false)

-- ============================================================================
-- Concrete instances, used to evaluate the model on closed inputs
-- ============================================================================

def wItems100 : List SItem := List.replicate 100 (SItem.dict none)

def wItems99 : List SItem := List.replicate 99 (SItem.dict none)

def wItems250 : List SItem := List.replicate 250 (SItem.dict none)

-- A client whose paginated tier succeeds with 250 items.
def wClientOk : ClientModel := { pystac := .retrieved wItems250, chunking := none }

-- A client whose paginated tier raises and whose chunking tier also raises.
def wClientFail : ClientModel :=
  { pystac := .raised "boom", chunking := some (.raised "boom2") }

def wSr100 : SearchResults := { featuresKey := some wItems100 }

def wSr99 : SearchResults := { featuresKey := some wItems99 }

def wS100 : STACSearch :=
  STACSearch.init wSr100 "earthsearch" (some wClientOk) [] none false

def wS99 : STACSearch :=
  STACSearch.init wSr99 "earthsearch" (some wClientOk) [] none false

def wSFail : STACSearch :=
  STACSearch.init wSr100 "earthsearch" (some wClientFail) [] none false

def wSNoClient : STACSearch :=
  STACSearch.init wSr100 "earthsearch" none [] none false

-- A search instance whose tier 2 succeeds, and its post-success state.
def c3wClient : ClientModel :=
  { pystac := .retrieved [SItem.dict (some "a")], chunking := none }

def c3wS : STACSearch :=
  STACSearch.init {} "earthsearch" (some c3wClient) [] none false

def c3wS2 : STACSearch := (c3wS.try_pystac_fallback true).1

def c3wColl : STACItemCollection :=
  { items := [SItem.dict (some "a")], provider := "earthsearch" }

-- The STACSearch produced by a successful EarthSearchCollections.search
-- with no filters and an empty feature set.
def c9wSE : STACSearch :=
  STACSearch.init
    { featuresKey := some [], total_returned := some 0,
      search_params := some { limitField := 100 },
      collections_searched := some .all }
    "earthsearch" none [] none false

-- The empty STACSearch that EarthSearchCollections.search returns on a
-- transport error with message "neterr".
def c10wS : STACSearch :=
  STACSearch.init
    { featuresKey := some [], total_returned := some 0, error := some "neterr" }
    "earthsearch" none [] none false

-- ============================================================================
-- Helper lemmas about the fallback tiers and get_all_items
-- ============================================================================

theorem tp_spec (pa : Bool) (s : STACSearch) :
    (s.try_pystac_fallback pa).1.results = s.results ∧
    (s.try_pystac_fallback pa).1.items = s.items ∧
    (s.try_pystac_fallback pa).1.provider = s.provider ∧
    (s.try_pystac_fallback pa).1.original_params = s.original_params ∧
    (s.try_pystac_fallback pa).1.client = s.client ∧
    (s.try_pystac_fallback pa).1.fallback_attempted = s.fallback_attempted ∧
    (s.try_pystac_fallback pa).1.chunking_attempted = s.chunking_attempted ∧
    (s.try_pystac_fallback pa).2.2.count .chunkingCall = 0 ∧
    ((s.try_pystac_fallback pa).2.2.count .pystacCall +
      potP (s.try_pystac_fallback pa).1 ≤ potP s) := by
  by_cases hg : (s.pystac_attempted || !pa) = true
  · simp [STACSearch.try_pystac_fallback, hg]
  · rcases hcl : s.client with _ | c
    · simp [STACSearch.try_pystac_fallback, hg, hcl, potP]
    · rcases hp : c.pystac with _ | m | got <;>
        simp_all [STACSearch.try_pystac_fallback, hg, hcl, hp, List.count_cons, potP]

theorem ch_spec (s : STACSearch) :
    (s.try_chunking_fallback).1.results = s.results ∧
    (s.try_chunking_fallback).1.items = s.items ∧
    (s.try_chunking_fallback).1.provider = s.provider ∧
    (s.try_chunking_fallback).1.original_params = s.original_params ∧
    (s.try_chunking_fallback).1.client = s.client ∧
    (s.try_chunking_fallback).1.fallback_attempted = s.fallback_attempted ∧
    (s.try_chunking_fallback).1.pystac_attempted = s.pystac_attempted ∧
    (s.try_chunking_fallback).2.2.count .pystacCall = 0 ∧
    ((s.try_chunking_fallback).2.2.count .chunkingCall +
      potC (s.try_chunking_fallback).1 ≤ potC s) := by
  by_cases hg : s.chunking_attempted = true
  · simp [STACSearch.try_chunking_fallback, hg, potC]
  · rcases hcl : s.client with _ | c
    · simp [STACSearch.try_chunking_fallback, hg, hcl, potC]
    · rcases hch : c.chunking with _ | o
      · simp_all [STACSearch.try_chunking_fallback, hg, hcl, hch, potC]
      · rcases o with m | got <;>
          simp_all [STACSearch.try_chunking_fallback, hg, hcl, hch, List.count_cons, potC]

theorem tp_potC (pa : Bool) (s : STACSearch) :
    potC (s.try_pystac_fallback pa).1 = potC s := by
  have h := (tp_spec pa s).2.2.2.2.2.2.1
  simp [potC, h]

theorem ch_potP (s : STACSearch) :
    potP (s.try_chunking_fallback).1 = potP s := by
  have h := (ch_spec s).2.2.2.2.2.2.1
  simp [potP, h]

theorem gai_eq_cache (pa : Bool) (s : STACSearch) (c : STACItemCollection)
    (h : s.all_items_cache = some c) : s.get_all_items pa = (s, c, []) := by
  simp [STACSearch.get_all_items, h]

theorem gai_eq_cached (pa : Bool) (s : STACSearch)
    (h : s.all_items_cache = none) (h2 : s.all_items_cached = true) :
    s.get_all_items pa =
      ({ s with all_items_cache := some { items := s.items, provider := s.provider } },
        { items := s.items, provider := s.provider }, []) := by
  simp [STACSearch.get_all_items, h, h2]

theorem gai_eq_nofb (pa : Bool) (s : STACSearch)
    (h : s.all_items_cache = none) (h2 : s.all_items_cached = false)
    (h3 : (!s.fallback_attempted && s.client.isSome) = false) :
    s.get_all_items pa = (s, { items := s.items, provider := s.provider }, []) := by
  simp [STACSearch.get_all_items, h, h2, h3]

theorem gai_eq_short (pa : Bool) (s : STACSearch)
    (h : s.all_items_cache = none) (h2 : s.all_items_cached = false)
    (h3 : (!s.fallback_attempted && s.client.isSome) = true)
    (h4 : s.items.length ≠ 100) :
    s.get_all_items pa =
      ({ s with fallback_attempted := true },
        { items := s.items, provider := s.provider }, []) := by
  simp [STACSearch.get_all_items, h, h2, h3, h4]

theorem gai_eq_tp (pa : Bool) (s s2 : STACSearch) (c2 : STACItemCollection)
    (ev : List TierCall)
    (h : s.all_items_cache = none) (h2 : s.all_items_cached = false)
    (h3 : (!s.fallback_attempted && s.client.isSome) = true)
    (h4 : s.items.length = 100)
    (htp : ({ s with fallback_attempted := true }).try_pystac_fallback pa =
      (s2, some c2, ev)) :
    s.get_all_items pa = (s2, c2, ev) := by
  have htp' := htp
  simp only [h, h2] at htp'
  simp [STACSearch.get_all_items, h, h2, h3, h4, htp']

theorem gai_eq_tpch (pa : Bool) (s s2 s3 : STACSearch) (c3 : STACItemCollection)
    (ev ev3 : List TierCall)
    (h : s.all_items_cache = none) (h2 : s.all_items_cached = false)
    (h3 : (!s.fallback_attempted && s.client.isSome) = true)
    (h4 : s.items.length = 100)
    (htp : ({ s with fallback_attempted := true }).try_pystac_fallback pa =
      (s2, none, ev))
    (hch : s2.try_chunking_fallback = (s3, some c3, ev3)) :
    s.get_all_items pa = (s3, c3, ev ++ ev3) := by
  have htp' := htp
  simp only [h, h2] at htp'
  simp [STACSearch.get_all_items, h, h2, h3, h4, htp', hch]

theorem gai_eq_fail (pa : Bool) (s s2 s3 : STACSearch) (ev ev3 : List TierCall)
    (h : s.all_items_cache = none) (h2 : s.all_items_cached = false)
    (h3 : (!s.fallback_attempted && s.client.isSome) = true)
    (h4 : s.items.length = 100)
    (htp : ({ s with fallback_attempted := true }).try_pystac_fallback pa =
      (s2, none, ev))
    (hch : s2.try_chunking_fallback = (s3, none, ev3)) :
    s.get_all_items pa =
      (s3, { items := s3.items, provider := s3.provider }, ev ++ ev3) := by
  have htp' := htp
  simp only [h, h2] at htp'
  simp [STACSearch.get_all_items, h, h2, h3, h4, htp', hch]

-- Per-tier state characterization on failure and success, and idempotence of
-- get_all_items after its first call.

theorem tp_none_state (pa : Bool) (s s2 : STACSearch) (ev : List TierCall)
    (h : s.try_pystac_fallback pa = (s2, none, ev)) :
    s2.all_items_cache = s.all_items_cache ∧
    s2.all_items_cached = s.all_items_cached ∧
    s2.items = s.items ∧ s2.provider = s.provider ∧
    s2.fallback_attempted = s.fallback_attempted ∧
    s2.client = s.client ∧ s2.chunking_attempted = s.chunking_attempted := by
  by_cases hg : (s.pystac_attempted || !pa) = true
  · simp [STACSearch.try_pystac_fallback, hg] at h
    simp [h.1.symm]
  · rcases hcl : s.client with _ | c
    · simp [STACSearch.try_pystac_fallback, hg, hcl] at h
      simp [h.1.symm, hcl]
    · rcases hp : c.pystac with _ | m | got <;>
        simp [STACSearch.try_pystac_fallback, hg, hcl, hp] at h <;>
        simp [h.1.symm, hcl]

theorem tp_some_cache (pa : Bool) (s s2 : STACSearch) (c2 : STACItemCollection)
    (ev : List TierCall) (h : s.try_pystac_fallback pa = (s2, some c2, ev)) :
    s2.all_items_cache = some c2 := by
  by_cases hg : (s.pystac_attempted || !pa) = true
  · simp [STACSearch.try_pystac_fallback, hg] at h
  · rcases hcl : s.client with _ | c
    · simp [STACSearch.try_pystac_fallback, hg, hcl] at h
    · rcases hp : c.pystac with _ | m | got
      · simp [STACSearch.try_pystac_fallback, hg, hcl, hp] at h
      · simp [STACSearch.try_pystac_fallback, hg, hcl, hp] at h
      · simp [STACSearch.try_pystac_fallback, hg, hcl, hp] at h
        rw [← h.1, h.2.1.symm]

theorem ch_none_state (s s2 : STACSearch) (ev : List TierCall)
    (h : s.try_chunking_fallback = (s2, none, ev)) :
    s2.all_items_cache = s.all_items_cache ∧
    s2.all_items_cached = s.all_items_cached ∧
    s2.items = s.items ∧ s2.provider = s.provider ∧
    s2.fallback_attempted = s.fallback_attempted ∧
    s2.client = s.client := by
  by_cases hg : s.chunking_attempted = true
  · simp [STACSearch.try_chunking_fallback, hg] at h
    simp [h.1.symm]
  · rcases hcl : s.client with _ | c
    · simp [STACSearch.try_chunking_fallback, hg, hcl] at h
      simp [h.1.symm, hcl]
    · rcases hch : c.chunking with _ | o
      · simp [STACSearch.try_chunking_fallback, hg, hcl, hch] at h
        simp [h.1.symm, hcl]
      · rcases o with m | got
        · simp [STACSearch.try_chunking_fallback, hg, hcl, hch] at h
          simp [h.1.symm, hcl]
        · simp [STACSearch.try_chunking_fallback, hg, hcl, hch] at h

theorem ch_some_cache (s s2 : STACSearch) (c2 : STACItemCollection)
    (ev : List TierCall) (h : s.try_chunking_fallback = (s2, some c2, ev)) :
    s2.all_items_cache = some c2 := by
  by_cases hg : s.chunking_attempted = true
  · simp [STACSearch.try_chunking_fallback, hg] at h
  · rcases hcl : s.client with _ | c
    · simp [STACSearch.try_chunking_fallback, hg, hcl] at h
    · rcases hch : c.chunking with _ | o
      · simp [STACSearch.try_chunking_fallback, hg, hcl, hch] at h
      · rcases o with m | got
        · simp [STACSearch.try_chunking_fallback, hg, hcl, hch] at h
        · simp [STACSearch.try_chunking_fallback, hg, hcl, hch] at h
          rw [← h.1, h.2.1.symm]

theorem gai_idem (pa : Bool) (s : STACSearch) :
    (s.get_all_items pa).1.get_all_items pa =
      ((s.get_all_items pa).1, (s.get_all_items pa).2.1, []) := by
  rcases hc : s.all_items_cache with _ | c
  · by_cases hcached : s.all_items_cached = true
    · rw [gai_eq_cached pa s hc hcached]
      exact gai_eq_cache pa _ _ rfl
    · rw [Bool.not_eq_true] at hcached
      by_cases hfb : (!s.fallback_attempted && s.client.isSome) = true
      · by_cases hlen : s.items.length = 100
        · rcases htp : ({ s with fallback_attempted := true }).try_pystac_fallback pa
            with ⟨s2, oc, ev⟩
          rcases oc with _ | c2
          · rcases hch : s2.try_chunking_fallback with ⟨s3, oc3, ev3⟩
            obtain ⟨t1, t2, t3, t4, t5, t6, t7⟩ := tp_none_state pa _ s2 ev htp
            rcases oc3 with _ | c3
            · rw [gai_eq_fail pa s s2 s3 ev ev3 hc hcached hfb hlen htp hch]
              obtain ⟨u1, u2, u3, u4, u5, u6⟩ := ch_none_state s2 s3 ev3 hch
              have h1 : s3.all_items_cache = none := by
                rw [u1, t1]; exact hc
              have h2 : s3.all_items_cached = false := by
                rw [u2, t2]; exact hcached
              have h3 : (!s3.fallback_attempted && s3.client.isSome) = false := by
                rw [u5, t5]; simp
              exact gai_eq_nofb pa s3 h1 h2 h3
            · rw [gai_eq_tpch pa s s2 s3 c3 ev ev3 hc hcached hfb hlen htp hch]
              exact gai_eq_cache pa s3 c3 (ch_some_cache s2 s3 c3 ev3 hch)
          · rw [gai_eq_tp pa s s2 c2 ev hc hcached hfb hlen htp]
            exact gai_eq_cache pa s2 c2 (tp_some_cache pa _ s2 c2 ev htp)
        · rw [gai_eq_short pa s hc hcached hfb hlen]
          have h3 : (!({ s with fallback_attempted := true } : STACSearch).fallback_attempted &&
              ({ s with fallback_attempted := true } : STACSearch).client.isSome) = false := by
            simp
          exact gai_eq_nofb pa _ hc hcached h3
      · rw [Bool.not_eq_true] at hfb
        rw [gai_eq_nofb pa s hc hcached hfb]
        exact gai_eq_nofb pa s hc hcached hfb
  · rw [gai_eq_cache pa s c hc]
    exact gai_eq_cache pa s c hc

theorem potP_fb (s : STACSearch) :
    potP { s with fallback_attempted := true } = potP s := rfl

theorem potC_fb (s : STACSearch) :
    potC { s with fallback_attempted := true } = potC s := rfl

theorem potP_cacheU (s : STACSearch) (c : Option STACItemCollection) :
    potP { s with all_items_cache := c } = potP s := rfl

theorem potC_cacheU (s : STACSearch) (c : Option STACItemCollection) :
    potC { s with all_items_cache := c } = potC s := rfl

theorem potP_metaM (s : STACSearch) (n : Option Nat) :
    potP { s with meta_fallback_matched := n } = potP s := rfl

theorem potC_metaM (s : STACSearch) (n : Option Nat) :
    potC { s with meta_fallback_matched := n } = potC s := rfl

theorem potP_metaT (s : STACSearch) (n : Option Nat) :
    potP { s with meta_fallback_total := n } = potP s := rfl

theorem potC_metaT (s : STACSearch) (n : Option Nat) :
    potC { s with meta_fallback_total := n } = potC s := rfl

theorem gai_spec (pa : Bool) (s : STACSearch) :
    (s.get_all_items pa).1.results = s.results ∧
    (s.get_all_items pa).1.items = s.items ∧
    (s.get_all_items pa).1.provider = s.provider ∧
    (s.get_all_items pa).1.original_params = s.original_params ∧
    (s.get_all_items pa).1.client = s.client ∧
    ((s.get_all_items pa).2.2.count .pystacCall + potP (s.get_all_items pa).1 ≤ potP s) ∧
    ((s.get_all_items pa).2.2.count .chunkingCall + potC (s.get_all_items pa).1 ≤ potC s) := by
  rcases hc : s.all_items_cache with _ | c
  · by_cases hcached : s.all_items_cached = true
    · rw [gai_eq_cached pa s hc hcached]
      dsimp only
      simp [potP_cacheU, potC_cacheU, potP, potC]
    · rw [Bool.not_eq_true] at hcached
      by_cases hfb : (!s.fallback_attempted && s.client.isSome) = true
      · by_cases hlen : s.items.length = 100
        · rcases htp : ({ s with fallback_attempted := true }).try_pystac_fallback pa
            with ⟨s2, oc, ev⟩
          have h2 := tp_spec pa { s with fallback_attempted := true }
          have h2c := tp_potC pa { s with fallback_attempted := true }
          rw [htp] at h2 h2c
          dsimp only at h2 h2c
          rw [potP_fb] at h2
          rw [potC_fb] at h2c
          obtain ⟨a2, b2, p2, o2, l2, f2, k2, z2, w2⟩ := h2
          rcases oc with _ | c2
          · rcases hch : s2.try_chunking_fallback with ⟨s3, oc3, ev3⟩
            have h3 := ch_spec s2
            have h3p := ch_potP s2
            rw [hch] at h3 h3p
            dsimp only at h3 h3p
            obtain ⟨a3, b3, p3, o3, l3, f3, k3, z3, w3⟩ := h3
            rcases oc3 with _ | c3
            · rw [gai_eq_fail pa s s2 s3 ev ev3 hc hcached hfb hlen htp hch]
              dsimp only
              refine ⟨by rw [a3, a2], by rw [b3, b2], by rw [p3, p2],
                by rw [o3, o2], by rw [l3, l2], ?_, ?_⟩ <;>
                simp only [List.count_append] <;> omega
            · rw [gai_eq_tpch pa s s2 s3 c3 ev ev3 hc hcached hfb hlen htp hch]
              dsimp only
              refine ⟨by rw [a3, a2], by rw [b3, b2], by rw [p3, p2],
                by rw [o3, o2], by rw [l3, l2], ?_, ?_⟩ <;>
                simp only [List.count_append] <;> omega
          · rw [gai_eq_tp pa s s2 c2 ev hc hcached hfb hlen htp]
            dsimp only
            exact ⟨a2, b2, p2, o2, l2, by omega, by omega⟩
        · rw [gai_eq_short pa s hc hcached hfb hlen]
          dsimp only
          simp [potP_fb, potC_fb, potP, potC]
      · rw [Bool.not_eq_true] at hfb
        rw [gai_eq_nofb pa s hc hcached hfb]
        simp [potP, potC]
  · rw [gai_eq_cache pa s c hc]
    simp [potP, potC]

theorem ensure_eq_cache (pa : Bool) (s : STACSearch) (c : STACItemCollection)
    (h : s.all_items_cache = some c) :
    s.ensure_fallback_data pa = (s, some c, []) := by
  simp [STACSearch.ensure_fallback_data, h]

theorem ensure_eq_none (pa : Bool) (s s1 : STACSearch) (c1 : STACItemCollection)
    (ev : List TierCall) (h : s.all_items_cache = none)
    (hg : s.get_all_items pa = (s1, c1, ev)) :
    s.ensure_fallback_data pa =
      ({ s1 with all_items_cache := some c1 }, some c1, ev) := by
  simp [STACSearch.ensure_fallback_data, h, hg]

theorem ensure_spec (pa : Bool) (s : STACSearch) :
    (s.ensure_fallback_data pa).1.results = s.results ∧
    (s.ensure_fallback_data pa).1.items = s.items ∧
    (s.ensure_fallback_data pa).1.provider = s.provider ∧
    (s.ensure_fallback_data pa).1.original_params = s.original_params ∧
    (s.ensure_fallback_data pa).1.client = s.client ∧
    ((s.ensure_fallback_data pa).2.2.count .pystacCall +
      potP (s.ensure_fallback_data pa).1 ≤ potP s) ∧
    ((s.ensure_fallback_data pa).2.2.count .chunkingCall +
      potC (s.ensure_fallback_data pa).1 ≤ potC s) := by
  rcases hc : s.all_items_cache with _ | c
  · rcases hg : s.get_all_items pa with ⟨s1, c1, ev⟩
    have h := gai_spec pa s
    rw [hg] at h
    dsimp only at h
    obtain ⟨a1, b1, p1, o1, l1, w1, w2⟩ := h
    rw [ensure_eq_none pa s s1 c1 ev hc hg]
    dsimp only
    rw [potP_cacheU, potC_cacheU]
    exact ⟨a1, b1, p1, o1, l1, w1, w2⟩
  · rw [ensure_eq_cache pa s c hc]
    simp [potP, potC]

theorem potP_le_one (s : STACSearch) : potP s ≤ 1 := by
  unfold potP
  split <;> simp

theorem potC_le_one (s : STACSearch) : potC s ≤ 1 := by
  unfold potC
  split <;> simp

theorem ensure_gives_cache (pa : Bool) (s : STACSearch) :
    (s.ensure_fallback_data pa).1.all_items_cache = (s.ensure_fallback_data pa).2.1 ∧
    ∃ c, (s.ensure_fallback_data pa).2.1 = some c := by
  rcases hc : s.all_items_cache with _ | c
  · rcases hg : s.get_all_items pa with ⟨s1, c1, ev⟩
    rw [ensure_eq_none pa s s1 c1 ev hc hg]
    exact ⟨rfl, c1, rfl⟩
  · rw [ensure_eq_cache pa s c hc]
    exact ⟨hc, c, rfl⟩

theorem step_pot (pa : Bool) (s : STACSearch) (m : MethodCall) :
    ((s.step pa m).2.count .pystacCall + potP (s.step pa m).1 ≤ potP s) ∧
    ((s.step pa m).2.count .chunkingCall + potC (s.step pa m).1 ≤ potC s) := by
  cases m
  case getAllItems =>
    rcases hg : s.get_all_items pa with ⟨s1, c1, ev⟩
    have h := gai_spec pa s
    rw [hg] at h
    dsimp only at h
    obtain ⟨_, _, _, _, _, w1, w2⟩ := h
    simp only [STACSearch.step, hg]
    exact ⟨w1, w2⟩
  case itemsIter =>
    rcases he : s.ensure_fallback_data pa with ⟨s1, oc, ev⟩
    have h := ensure_spec pa s
    rw [he] at h
    dsimp only at h
    obtain ⟨_, _, _, _, _, w1, w2⟩ := h
    rcases oc with _ | c <;>
      simp only [STACSearch.step, STACSearch.items_iter, he] <;> exact ⟨w1, w2⟩
  case matchedQ =>
    rcases hm1 : s.meta_pystac_matched with _ | n
    · rcases hm2 : s.meta_chunking_matched with _ | n
      · rcases he : s.ensure_fallback_data pa with ⟨s1, oc, ev⟩
        have h := ensure_spec pa s
        rw [he] at h
        dsimp only at h
        obtain ⟨_, _, _, _, _, w1, w2⟩ := h
        rcases oc with _ | c
        · simp only [STACSearch.step, STACSearch.matched, hm1, hm2, he]
          exact ⟨w1, w2⟩
        · simp only [STACSearch.step, STACSearch.matched, hm1, hm2, he]
          rw [potP_metaM, potC_metaM]
          exact ⟨w1, w2⟩
      · simp only [STACSearch.step, STACSearch.matched, hm1, hm2]
        simp
    · simp only [STACSearch.step, STACSearch.matched, hm1]
      simp
  case totalItemsQ =>
    rcases he : s.ensure_fallback_data pa with ⟨s1, oc, ev⟩
    have h := ensure_spec pa s
    rw [he] at h
    dsimp only at h
    obtain ⟨_, _, _, _, _, w1, w2⟩ := h
    rcases oc with _ | c
    · simp only [STACSearch.step, STACSearch.total_items, he]
      exact ⟨w1, w2⟩
    · simp only [STACSearch.step, STACSearch.total_items, he]
      rw [potP_metaT, potC_metaT]
      exact ⟨w1, w2⟩
  case productIds =>
    rcases he : s.ensure_fallback_data pa with ⟨s1, oc, ev⟩
    have h := ensure_spec pa s
    rw [he] at h
    dsimp only at h
    obtain ⟨_, _, _, _, _, w1, w2⟩ := h
    rcases oc with _ | c <;>
      simp only [STACSearch.step, STACSearch.list_product_ids, he] <;> exact ⟨w1, w2⟩
  case lenQ =>
    rcases he : s.ensure_fallback_data pa with ⟨s1, oc, ev⟩
    have h := ensure_spec pa s
    rw [he] at h
    dsimp only at h
    obtain ⟨_, _, _, _, _, w1, w2⟩ := h
    rcases oc with _ | c <;>
      simp only [STACSearch.step, STACSearch.length, he] <;> exact ⟨w1, w2⟩

theorem run_pot (pa : Bool) (ms : List MethodCall) (s : STACSearch) :
    ((s.run pa ms).2.count .pystacCall + potP (s.run pa ms).1 ≤ potP s) ∧
    ((s.run pa ms).2.count .chunkingCall + potC (s.run pa ms).1 ≤ potC s) := by
  induction ms generalizing s with
  | nil => simp [STACSearch.run]
  | cons m ms ih =>
    rcases hst : s.step pa m with ⟨s1, ev1⟩
    rcases hr : s1.run pa ms with ⟨s2, ev2⟩
    have h1 := step_pot pa s m
    rw [hst] at h1
    dsimp only at h1
    have h2 := ih s1
    rw [hr] at h2
    dsimp only at h2
    simp only [STACSearch.run, hst, hr, List.count_append]
    omega

theorem tp_success_eq (s : STACSearch) (c : ClientModel) (got : List SItem)
    (hflag : s.pystac_attempted = false) (hcl : s.client = some c)
    (hpy : c.pystac = .retrieved got) :
    s.try_pystac_fallback true =
      ({ s with pystac_attempted := true
                meta_pystac_matched := some got.length
                all_items_cache := some { items := got, provider := s.provider }
                all_items_cached := true },
        some { items := got, provider := s.provider }, [.pystacCall]) := by
  simp [STACSearch.try_pystac_fallback, hflag, hcl, hpy]

theorem tp_raised_eq (s : STACSearch) (c : ClientModel) (m : String)
    (hflag : s.pystac_attempted = false) (hcl : s.client = some c)
    (hpy : c.pystac = .raised m) :
    s.try_pystac_fallback true =
      ({ s with pystac_attempted := true }, none, [.pystacCall]) := by
  simp [STACSearch.try_pystac_fallback, hflag, hcl, hpy]

theorem ch_retrieved_eq (s : STACSearch) (c : ClientModel) (got : List SItem)
    (hflag : s.chunking_attempted = false) (hcl : s.client = some c)
    (hch : c.chunking = some (.retrieved got)) :
    s.try_chunking_fallback =
      ({ s with chunking_attempted := true
                meta_chunking_matched := some got.length
                all_items_cache := some { items := got, provider := s.provider }
                all_items_cached := true },
        some { items := got, provider := s.provider }, [.chunkingCall]) := by
  simp [STACSearch.try_chunking_fallback, hflag, hcl, hch]

theorem ch_raised_eq (s : STACSearch) (c : ClientModel) (m : String)
    (hflag : s.chunking_attempted = false) (hcl : s.client = some c)
    (hch : c.chunking = some (.raised m)) :
    s.try_chunking_fallback =
      ({ s with chunking_attempted := true }, none, [.chunkingCall]) := by
  simp [STACSearch.try_chunking_fallback, hflag, hcl, hch]

theorem ch_missing_eq (s : STACSearch) (c : ClientModel)
    (hflag : s.chunking_attempted = false) (hcl : s.client = some c)
    (hch : c.chunking = none) :
    s.try_chunking_fallback =
      ({ s with chunking_attempted := true }, none, []) := by
  simp [STACSearch.try_chunking_fallback, hflag, hcl, hch]

theorem tp_fails (pa : Bool) (s : STACSearch) (c : ClientModel)
    (hcl : s.client = some c)
    (hf : pa = false ∨ c.pystac = .noCatalog ∨ ∃ m, c.pystac = .raised m) :
    ∃ s2 ev, s.try_pystac_fallback pa = (s2, none, ev) := by
  by_cases hg : (s.pystac_attempted || !pa) = true
  · exact ⟨s, [], by simp [STACSearch.try_pystac_fallback, hg]⟩
  · rcases hf with h | h | ⟨m, h⟩
    · subst h
      simp at hg
    · exact ⟨{ s with pystac_attempted := true }, [.pystacCall],
        by simp [STACSearch.try_pystac_fallback, hg, hcl, h]⟩
    · exact ⟨{ s with pystac_attempted := true }, [.pystacCall],
        by simp [STACSearch.try_pystac_fallback, hg, hcl, h]⟩

theorem ch_fails (s : STACSearch) (c : ClientModel)
    (hcl : s.client = some c)
    (hf : c.chunking = none ∨ ∃ m, c.chunking = some (.raised m)) :
    ∃ s2 ev, s.try_chunking_fallback = (s2, none, ev) := by
  by_cases hg : s.chunking_attempted = true
  · exact ⟨s, [], by simp [STACSearch.try_chunking_fallback, hg]⟩
  · rcases hf with h | ⟨m, h⟩
    · exact ⟨{ s with chunking_attempted := true }, [],
        by simp [STACSearch.try_chunking_fallback, hg, hcl, h]⟩
    · exact ⟨{ s with chunking_attempted := true }, [.chunkingCall],
        by simp [STACSearch.try_chunking_fallback, hg, hcl, h]⟩

-- ============================================================================
-- Claim theorems and their witnesses
-- ============================================================================


/-- Claim C1: for a STACSearch built from a direct page with a client
instance, if the direct page has exactly 100 items (the configured page
size) and the tier-2 paginated collaborator succeeds returning N items,
get_all_items returns a collection of exactly those N items; for any other
direct-page count (e.g. 99) no escalation tier is attempted and
get_all_items returns exactly the direct page's items. -/
theorem claim_C1 (sr : SearchResults) (prov : String) (c : ClientModel)
    (params : List (String × String)) (url : Option String) (vb : Bool)
    (got : List SItem) (s0 : STACSearch)
    (hs : s0 = STACSearch.init sr prov (some c) params url vb)
    (hcached : sr.all_items_cached = false)
    (hpy : c.pystac = .retrieved got) :
    (s0.items.length = 100 →
      (s0.get_all_items true).2.1 = { items := got, provider := prov }) ∧
    (s0.items.length ≠ 100 →
      (s0.get_all_items true).2.1 = { items := s0.items, provider := prov } ∧
      (s0.get_all_items true).2.2 = [] ∧
      (s0.get_all_items true).1.pystac_attempted = false ∧
      (s0.get_all_items true).1.chunking_attempted = false) := by
  have hc : s0.all_items_cache = none := by
    rw [hs]; simp [STACSearch.init, hcached]
  have hcf : s0.all_items_cached = false := by
    rw [hs]; simp [STACSearch.init, hcached]
  have hfb : (!s0.fallback_attempted && s0.client.isSome) = true := by
    rw [hs]; simp [STACSearch.init]
  have hprov : s0.provider = prov := by rw [hs]; rfl
  have hflag : ({ s0 with fallback_attempted := true } : STACSearch).pystac_attempted
      = false := by
    rw [hs]; rfl
  have hcl : ({ s0 with fallback_attempted := true } : STACSearch).client = some c := by
    rw [hs]; rfl
  constructor
  · intro hlen
    rw [gai_eq_tp true s0 _ _ _ hc hcf hfb hlen
      (tp_success_eq _ c got hflag hcl hpy)]
    dsimp only
    rw [hprov]
  · intro hlen
    rw [gai_eq_short true s0 hc hcf hfb hlen]
    refine ⟨by dsimp only; rw [hprov], rfl, ?_, ?_⟩
    · dsimp only
      rw [hs]; rfl
    · dsimp only
      rw [hs]; rfl

/-- Claim C2: get_all_items never raises (it is a total function of the
embedded state, all collaborator exceptions being consumed inside the
tiers) and, whenever every escalation tier fails or is unavailable — no
client, pystac unavailable, catalog creation failing, either collaborator
raising, or the chunking method missing — the returned collection is
exactly the original direct-page items. -/
theorem claim_C2 (sr : SearchResults) (prov : String)
    (clientOpt : Option ClientModel) (params : List (String × String))
    (url : Option String) (vb : Bool) (pa : Bool) (s0 : STACSearch)
    (hs : s0 = STACSearch.init sr prov clientOpt params url vb)
    (hfail : clientOpt = none ∨ ∃ c, clientOpt = some c ∧
      (pa = false ∨ c.pystac = .noCatalog ∨ ∃ m, c.pystac = .raised m) ∧
      (c.chunking = none ∨ ∃ m, c.chunking = some (.raised m))) :
    (s0.get_all_items pa).2.1 = { items := s0.items, provider := prov } := by
  have hprov : s0.provider = prov := by rw [hs]; rfl
  by_cases hcached : sr.all_items_cached = true
  · have hcsome : s0.all_items_cache = some { items := s0.items, provider := prov } := by
      rw [hs]; simp [STACSearch.init, hcached]
    rw [gai_eq_cache pa s0 _ hcsome]
  · have hc : s0.all_items_cache = none := by
      rw [hs]; simp [STACSearch.init, hcached]
    have hcf : s0.all_items_cached = false := by
      rw [Bool.not_eq_true] at hcached
      rw [hs]; simp [STACSearch.init, hcached]
    rcases hfail with hno | ⟨c, hcsome, hpf, hcf2⟩
    · have hfb : (!s0.fallback_attempted && s0.client.isSome) = false := by
        rw [hs, hno]; simp [STACSearch.init]
      rw [gai_eq_nofb pa s0 hc hcf hfb]
      dsimp only
      rw [hprov]
    · by_cases hlen : s0.items.length = 100
      · have hcl1 : ({ s0 with fallback_attempted := true } : STACSearch).client
            = some c := by
          rw [hs, hcsome]; rfl
        obtain ⟨s2, ev, htp⟩ := tp_fails pa _ c hcl1 hpf
        have hcl2 : s2.client = some c := by
          have h := (tp_none_state pa _ s2 ev htp).2.2.2.2.2.1
          rw [h, hcl1]
        obtain ⟨s3, ev3, hch⟩ := ch_fails s2 c hcl2 hcf2
        have hfb : (!s0.fallback_attempted && s0.client.isSome) = true := by
          rw [hs, hcsome]; simp [STACSearch.init]
        rw [gai_eq_fail pa s0 s2 s3 ev ev3 hc hcf hfb hlen htp hch]
        obtain ⟨t1, t2, t3, t4, t5, t6, t7⟩ := tp_none_state pa _ s2 ev htp
        obtain ⟨u1, u2, u3, u4, u5, u6⟩ := ch_none_state s2 s3 ev3 hch
        dsimp only
        rw [u3, t3, u4, t4]
        dsimp only
        rw [hprov]
      · have hfb : (!s0.fallback_attempted && s0.client.isSome) = true := by
          rw [hs, hcsome]; simp [STACSearch.init]
        rw [gai_eq_short pa s0 hc hcf hfb hlen]
        dsimp only
        rw [hprov]

/-- Claim C3: once an escalation tier succeeds and populates the cache,
every subsequent get_all_items call returns the cached collection,
leaves the state unchanged, and invokes neither the paginated nor the
chunked collaborator again (the empty event list). -/
theorem claim_C3 (pa pa2 : Bool) (s s2 : STACSearch) (coll : STACItemCollection)
    (ev : List TierCall) :
    (s.try_pystac_fallback pa = (s2, some coll, ev) →
      s2.get_all_items pa2 = (s2, coll, [])) ∧
    (s.try_chunking_fallback = (s2, some coll, ev) →
      s2.get_all_items pa2 = (s2, coll, [])) := by
  constructor
  · intro h
    exact gai_eq_cache pa2 s2 coll (tp_some_cache pa s s2 coll ev h)
  · intro h
    exact gai_eq_cache pa2 s2 coll (ch_some_cache s s2 coll ev h)

/-- Claim C4: over any sequence of get_all_items / items / matched /
total_items / list_product_ids / __len__ calls, each retrieval
collaborator is invoked at most once, and after a first get_all_items
resolution later get_all_items calls return the same resolved collection
with no further collaborator invocations. -/
theorem claim_C4 (pa : Bool) (s : STACSearch) (ms : List MethodCall) :
    ((s.run pa ms).2.count .pystacCall ≤ 1) ∧
    ((s.run pa ms).2.count .chunkingCall ≤ 1) ∧
    ((s.get_all_items pa).1.get_all_items pa =
      ((s.get_all_items pa).1, (s.get_all_items pa).2.1, [])) := by
  have h := run_pot pa ms s
  have hp := potP_le_one s
  have hc := potC_le_one s
  exact ⟨by omega, by omega, gai_idem pa s⟩

/-- Claim C5: an exception raised inside tier 2 (pystac) is caught —
get_all_items still returns a value, tier 2 and tier 3 are both marked
attempted — and after the tier-2 failure tier 3 is still attempted: a
chunking success is returned, while a chunking exception (also caught) or
a missing chunking method falls back to the direct-page items. -/
theorem claim_C5 (sr : SearchResults) (prov : String)
    (params : List (String × String)) (url : Option String) (vb : Bool)
    (m : String) (chunkRes : Option ChunkOutcome) (got : List SItem)
    (m2 : String) (s0 : STACSearch)
    (hs : s0 = STACSearch.init sr prov
      (some { pystac := .raised m, chunking := chunkRes }) params url vb)
    (hcached : sr.all_items_cached = false)
    (hlen : s0.items.length = 100) :
    (s0.get_all_items true).1.pystac_attempted = true ∧
    (s0.get_all_items true).1.chunking_attempted = true ∧
    (chunkRes = some (.retrieved got) →
      (s0.get_all_items true).2.1 = { items := got, provider := prov }) ∧
    (chunkRes = some (.raised m2) →
      (s0.get_all_items true).2.1 = { items := s0.items, provider := prov }) ∧
    (chunkRes = none →
      (s0.get_all_items true).2.1 = { items := s0.items, provider := prov }) := by
  have hc : s0.all_items_cache = none := by
    rw [hs]; simp [STACSearch.init, hcached]
  have hcf : s0.all_items_cached = false := by
    rw [hs]; simp [STACSearch.init, hcached]
  have hfb : (!s0.fallback_attempted && s0.client.isSome) = true := by
    rw [hs]; simp [STACSearch.init]
  have hprov : s0.provider = prov := by rw [hs]; rfl
  have hflag : ({ s0 with fallback_attempted := true } : STACSearch).pystac_attempted
      = false := by
    rw [hs]; rfl
  have hcl : ({ s0 with fallback_attempted := true } : STACSearch).client =
      some { pystac := .raised m, chunking := chunkRes } := by
    rw [hs]; rfl
  have htp := tp_raised_eq ({ s0 with fallback_attempted := true }) _ m hflag hcl rfl
  have hflag2 : ({ { s0 with fallback_attempted := true } with
      pystac_attempted := true } : STACSearch).chunking_attempted = false := by
    rw [hs]; rfl
  have hcl2 : ({ { s0 with fallback_attempted := true } with
      pystac_attempted := true } : STACSearch).client =
      some { pystac := .raised m, chunking := chunkRes } := by
    rw [hs]; rfl
  rcases chunkRes with _ | co
  · have hch := ch_missing_eq _ _ hflag2 hcl2 rfl
    rw [gai_eq_fail true s0 _ _ _ _ hc hcf hfb hlen htp hch]
    refine ⟨rfl, rfl, by simp, by simp, fun _ => ?_⟩
    dsimp only
    rw [hprov]
  · rcases co with m' | got'
    · have hch := ch_raised_eq _ _ m' hflag2 hcl2 rfl
      rw [gai_eq_fail true s0 _ _ _ _ hc hcf hfb hlen htp hch]
      refine ⟨rfl, rfl, by simp, fun _ => ?_, by simp⟩
      dsimp only
      rw [hprov]
    · have hch := ch_retrieved_eq _ _ got' hflag2 hcl2 rfl
      rw [gai_eq_tpch true s0 _ _ _ _ _ hc hcf hfb hlen htp hch]
      refine ⟨rfl, rfl, ?_, by simp, by simp⟩
      intro h
      have hg : got' = got := by
        have h2 := h
        simp only [Option.some.injEq] at h2
        cases h2
        rfl
      subst hg
      dsimp only
      rw [hprov]

/-- Claim C6: neither get_all_items nor either escalation tier ever
modifies the originally constructed search-result fields: the raw results
mapping, the direct-page item list, the provider identifier and the
original query parameters are all preserved. -/
theorem claim_C6 (pa : Bool) (s : STACSearch) :
    (s.get_all_items pa).1.results = s.results ∧
    (s.get_all_items pa).1.items = s.items ∧
    (s.get_all_items pa).1.provider = s.provider ∧
    (s.get_all_items pa).1.original_params = s.original_params ∧
    (s.try_pystac_fallback pa).1.results = s.results ∧
    (s.try_pystac_fallback pa).1.items = s.items ∧
    (s.try_pystac_fallback pa).1.provider = s.provider ∧
    (s.try_pystac_fallback pa).1.original_params = s.original_params ∧
    (s.try_chunking_fallback).1.results = s.results ∧
    (s.try_chunking_fallback).1.items = s.items ∧
    (s.try_chunking_fallback).1.provider = s.provider ∧
    (s.try_chunking_fallback).1.original_params = s.original_params := by
  obtain ⟨a1, b1, p1, o1, _⟩ := gai_spec pa s
  obtain ⟨a2, b2, p2, o2, _⟩ := tp_spec pa s
  obtain ⟨a3, b3, p3, o3, _⟩ := ch_spec s
  exact ⟨a1, b1, p1, o1, a2, b2, p2, o2, a3, b3, p3, o3⟩

theorem ratMin_eq (a b : ℚ) : ratMin a b = min a b := by
  rw [ratMin, min_def]

theorem ratMax_eq (a b : ℚ) : ratMax a b = max a b := by
  rw [ratMax, max_def]

/-- Claim C7: a sequence of exactly two 2-number points normalizes to a
BoundingBox built from the two points as diagonal corners with min/max
normalization (hence order-independent) and passes filter_by_geometry
without a GeometryError, whereas the single-element input [123.456] fails
with GeometryError. -/
theorem claim_C7 (x1 y1 x2 y2 : ℚ) (items : List FItem) :
    GeometryNormalizer.normalize (.points [(x1, y1), (x2, y2)]) =
      .ok (.bbox (min x1 x2) (min y1 y2) (max x1 x2) (max y1 y2)) ∧
    GeometryNormalizer.normalize (.points [(x1, y1), (x2, y2)]) =
      GeometryNormalizer.normalize (.points [(x2, y2), (x1, y1)]) ∧
    (∃ kept, filter_by_geometry items (.points [(x1, y1), (x2, y2)]) = .ok kept) ∧
    GeometryNormalizer.normalize (.numbers [(123456 : ℚ) / 1000]) =
      .error { msg := "Unsupported geometry type" } := by
  have h1 : GeometryNormalizer.normalize (.points [(x1, y1), (x2, y2)]) =
      .ok (.bbox (ratMin x1 x2) (ratMin y1 y2) (ratMax x1 x2) (ratMax y1 y2)) := rfl
  have h2 : GeometryNormalizer.normalize (.points [(x2, y2), (x1, y1)]) =
      .ok (.bbox (ratMin x2 x1) (ratMin y2 y1) (ratMax x2 x1) (ratMax y2 y1)) := rfl
  refine ⟨?_, ?_, ?_, rfl⟩
  · rw [h1, ratMin_eq, ratMin_eq, ratMax_eq, ratMax_eq]
  · rw [h1, h2, ratMin_eq, ratMin_eq, ratMax_eq, ratMax_eq,
      ratMin_eq, ratMin_eq, ratMax_eq, ratMax_eq,
      min_comm x2 x1, min_comm y2 y1, max_comm x2 x1, max_comm y2 y1]
  · refine ⟨items.filter (fun it =>
      match itemFootprint it with
      | some fp => geomIntersects
          (.bbox (ratMin x1 x2) (ratMin y1 y2) (ratMax x1 x2) (ratMax y1 y2)) fp
      | none => false), ?_⟩
    rfl

/-- Claim C8: the spatial filter fails fast on uninterpretable geometry:
None raises GeometryError "Unsupported geometry type", the malformed WKT
string "INVALID WKT STRING" raises GeometryError, and every normalization
error is surfaced unchanged to the caller of filter_by_geometry. -/
theorem claim_C8 (items : List FItem) (g : GeomInput) (e : GeometryError)
    (hg : GeometryNormalizer.normalize g = .error e) :
    filter_by_geometry items .null = .error { msg := "Unsupported geometry type" } ∧
    (∃ e2, filter_by_geometry items (.wkt "INVALID WKT STRING") = .error e2) ∧
    filter_by_geometry items g = .error e := by
  refine ⟨rfl, ⟨{ msg := "Malformed WKT" }, ?_⟩, ?_⟩
  · have hw : GeometryNormalizer.normalize (.wkt "INVALID WKT STRING") =
        .error { msg := "Malformed WKT" } := by decide
    simp [filter_by_geometry, hw]
  · simp [filter_by_geometry, hg]

/-- Claim C9: a STACSearch constructed without a client instance returns
the direct-page items from get_all_items for every item count (no length
hypothesis, so exactly 100 included), with no collaborator events and
both tier-attempted flags still false; and every STACSearch produced by
EarthSearchCollections.search has no client instance, so those results
never escalate. -/
theorem claim_C9 (sr : SearchResults) (prov : String)
    (params : List (String × String)) (url : Option String) (vb pa : Bool)
    (s0 : STACSearch) (kc : List String) (colls : Option (List String))
    (iArg : Bool) (bbox : Option (List ℚ)) (dt : Option DtInput) (q : Bool)
    (lim : Nat) (mi : Option Nat) (tr : Except String EsData) (sE : STACSearch)
    (hs : s0 = STACSearch.init sr prov none params url vb) :
    (s0.get_all_items pa).2.1 = { items := s0.items, provider := prov } ∧
    (s0.get_all_items pa).2.2 = [] ∧
    (s0.get_all_items pa).1.pystac_attempted = false ∧
    (s0.get_all_items pa).1.chunking_attempted = false ∧
    (esSearch kc colls iArg bbox dt q lim mi tr = .ok sE → sE.client = none) := by
  have hprov : s0.provider = prov := by rw [hs]; rfl
  have hmain : (s0.get_all_items pa).2.1 = { items := s0.items, provider := prov } ∧
      (s0.get_all_items pa).2.2 = [] ∧
      (s0.get_all_items pa).1.pystac_attempted = false ∧
      (s0.get_all_items pa).1.chunking_attempted = false := by
    by_cases hcached : sr.all_items_cached = true
    · have hcsome : s0.all_items_cache =
          some { items := s0.items, provider := prov } := by
        rw [hs]; simp [STACSearch.init, hcached]
      rw [gai_eq_cache pa s0 _ hcsome]
      refine ⟨rfl, rfl, ?_, ?_⟩
      · rw [hs]; rfl
      · rw [hs]; rfl
    · have hc : s0.all_items_cache = none := by
        rw [hs]; simp [STACSearch.init, hcached]
      have hcf : s0.all_items_cached = false := by
        rw [Bool.not_eq_true] at hcached
        rw [hs]; simp [STACSearch.init, hcached]
      have hfb : (!s0.fallback_attempted && s0.client.isSome) = false := by
        rw [hs]; simp [STACSearch.init]
      rw [gai_eq_nofb pa s0 hc hcf hfb]
      refine ⟨by dsimp only; rw [hprov], rfl, ?_, ?_⟩
      · rw [hs]; rfl
      · rw [hs]; rfl
  refine ⟨hmain.1, hmain.2.1, hmain.2.2.1, hmain.2.2.2, ?_⟩
  intro h
  rcases hbp : esBuildPayload kc colls iArg bbox dt q lim with e | p
  · simp [esSearch, hbp, Except.bind, Bind.bind, Except.instMonad] at h
  · rcases tr with e | data
    · simp [esSearch, hbp, Except.bind, Bind.bind, Except.instMonad,
        Pure.pure, Except.pure] at h
      subst h
      rfl
    · simp [esSearch, hbp, Except.bind, Bind.bind, Except.instMonad,
        Pure.pure, Except.pure] at h
      subst h
      rfl

/-- Claim C10: when the HTTP search request fails with a transport error,
EarthSearchCollections.search does not raise: it returns (as a normal
value) a STACSearch whose item list is empty, whose total_returned is 0,
whose results record the error string, and which has no client
instance. -/
theorem claim_C10 (kc : List String) (colls : Option (List String)) (iArg : Bool)
    (bbox : Option (List ℚ)) (dt : Option DtInput) (q : Bool) (lim : Nat)
    (mi : Option Nat) (e : String) (payload : EsPayload)
    (hb : esBuildPayload kc colls iArg bbox dt q lim = .ok payload) :
    esSearch kc colls iArg bbox dt q lim mi (.error e) =
      .ok (STACSearch.init
        { featuresKey := some [], total_returned := some 0, error := some e }
        "earthsearch" none [] none false) ∧
    (STACSearch.init
      { featuresKey := some [], total_returned := some 0, error := some e }
      "earthsearch" none [] none false).items = [] ∧
    (STACSearch.init
      { featuresKey := some [], total_returned := some 0, error := some e }
      "earthsearch" none [] none false).results.total_returned = some 0 ∧
    (STACSearch.init
      { featuresKey := some [], total_returned := some 0, error := some e }
      "earthsearch" none [] none false).results.error = some e ∧
    (STACSearch.init
      { featuresKey := some [], total_returned := some 0, error := some e }
      "earthsearch" none [] none false).client = none := by
  refine ⟨?_, rfl, rfl, rfl, rfl⟩
  simp [esSearch, hb]


theorem claim_C1_witness :
    (wS100.get_all_items true).2.1 =
      { items := wItems250, provider := "earthsearch" } ∧
    (wS99.get_all_items true).2.1 =
      { items := wS99.items, provider := "earthsearch" } ∧
    (wS99.get_all_items true).2.2 = [] := by
  have h100 := claim_C1 wSr100 "earthsearch" wClientOk [] none false wItems250
    wS100 rfl rfl rfl
  have h99 := claim_C1 wSr99 "earthsearch" wClientOk [] none false wItems250
    wS99 rfl rfl rfl
  exact ⟨h100.1 (by decide), (h99.2 (by decide)).1, (h99.2 (by decide)).2.1⟩

theorem claim_C2_witness :
    (wSFail.get_all_items true).2.1 =
      { items := wSFail.items, provider := "earthsearch" } :=
  claim_C2 wSr100 "earthsearch" (some wClientFail) [] none false true wSFail rfl
    (Or.inr ⟨wClientFail, rfl, Or.inr (Or.inr ⟨"boom", rfl⟩),
      Or.inr ⟨"boom2", rfl⟩⟩)

theorem claim_C3_witness :
    c3wS2.get_all_items true = (c3wS2, c3wColl, []) :=
  (claim_C3 true true c3wS c3wS2 c3wColl [.pystacCall]).1 (by decide)

theorem claim_C5_witness :
    (wSFail.get_all_items true).1.pystac_attempted = true ∧
    (wSFail.get_all_items true).1.chunking_attempted = true ∧
    (wSFail.get_all_items true).2.1 =
      { items := wSFail.items, provider := "earthsearch" } := by
  have h := claim_C5 wSr100 "earthsearch" [] none false "boom"
    (some (.raised "boom2")) [] "boom2" wSFail rfl rfl (by decide)
  exact ⟨h.1, h.2.1, h.2.2.2.1 rfl⟩

theorem claim_C8_witness :
    filter_by_geometry [] .null = .error { msg := "Unsupported geometry type" } ∧
    (∃ e2, filter_by_geometry [] (.wkt "INVALID WKT STRING") = .error e2) ∧
    filter_by_geometry [] .null = .error { msg := "Unsupported geometry type" } :=
  claim_C8 [] .null { msg := "Unsupported geometry type" } (by decide)

theorem claim_C9_witness :
    (wSNoClient.get_all_items true).2.1 =
      { items := wSNoClient.items, provider := "earthsearch" } ∧
    (wSNoClient.get_all_items true).2.2 = [] ∧
    c9wSE.client = none := by
  have h := claim_C9 wSr100 "earthsearch" [] none false true wSNoClient
    [] none false none none false 100 none (.ok (.dictWithFeatures [])) c9wSE rfl
  exact ⟨h.1, h.2.1, h.2.2.2.2 (by decide)⟩

theorem claim_C10_witness :
    esSearch [] none false none none false 100 none (.error "neterr") =
      .ok c10wS ∧
    c10wS.items = [] ∧
    c10wS.results.total_returned = some 0 ∧
    c10wS.results.error = some "neterr" := by
  have h := claim_C10 [] none false none none false 100 none "neterr"
    { limitField := 100 } (by decide)
  exact ⟨h.1, h.2.1, h.2.2.1, h.2.2.2.1⟩
